import Mathlib

/-!
Shallow embedding of the LightBnB data-access module
(file `LightBnB_WebApp-master/server/database.js`).

SQL statements are modelled symbolically: a query is the pair of the SQL
text and the positional parameter list handed to the driver, built
exactly as the JavaScript code builds them.  For fixed SQL statements
whose behaviour the specification describes (reservation listing, user
lookup, inserts) the statement's standard relational semantics is
embedded as a Lean function over an explicit database state.
-/

namespace LightBnB

/-- A positional SQL bind parameter: the JavaScript code pushes either
strings (the wildcarded city pattern) or numbers onto `queryParams`. -/
inductive SqlParam where
  | str : String → SqlParam
  | num : Int → SqlParam
deriving DecidableEq

/-- JavaScript truthiness of an optional string field: `undefined`
(modelled `none`) and the empty string are falsy. -/
def truthyS : Option String → Bool
  | none => false
  | some s => !(s == "")

/-- JavaScript truthiness of an optional numeric field: `undefined`
(modelled `none`) and `0` are falsy. -/
def truthyN : Option Int → Bool
  | none => false
  | some n => !(n == 0)

/-- The `options` record accepted by `getAllProperties`; `none` models an
absent field.  Numeric fields are modelled as integers (`Number(...)` in
the source is then the identity). -/
structure SearchOptions where
  city : Option String
  owner_id : Option Int
  minimum_price_per_night : Option Int
  maximum_price_per_night : Option Int
  minimum_rating : Option Int
deriving DecidableEq

/-- The base SELECT of `getAllProperties`, verbatim from the template
literal in the source (including its newlines and indentation). -/
def baseQuery : String :=
  "\n  SELECT properties.*, avg(property_reviews.rating) as average_rating\n  FROM properties\n  LEFT JOIN property_reviews ON properties.id = property_id\n  WHERE 1=1\n  "

/-- The predicate appended for a present `city` option, with placeholder
index `i`. -/
def cityClause (i : Nat) : String := "AND city ILIKE $" ++ toString i ++ " "

/-- The predicate appended for a present `owner_id` option. -/
def ownerClause (i : Nat) : String := "AND owner_id = $" ++ toString i ++ " "

/-- The predicate appended for a present `minimum_price_per_night`
option. -/
def minPriceClause (i : Nat) : String := "AND cost_per_night >= $" ++ toString i ++ " "

/-- The predicate appended for a present `maximum_price_per_night`
option. -/
def maxPriceClause (i : Nat) : String := "AND cost_per_night <= $" ++ toString i ++ " "

/-- The predicate appended for a present `minimum_rating` option: it
compares the per-row `property_reviews.rating` column. -/
def ratingClause (i : Nat) : String := "AND property_reviews.rating >= $" ++ toString i ++ " "

/-- The closing GROUP BY / ORDER BY / LIMIT text of `getAllProperties`,
with the placeholder index `i` of the bound limit. -/
def closingClause (i : Nat) : String :=
  "\n  GROUP BY properties.id\n  ORDER BY cost_per_night\n  LIMIT $" ++ toString i ++ ";\n  "

/-- One conditional filter step of the query builder: the source pattern
`if (options.x) { queryParams.push(v); queryString += clause($queryParams.length) }`.
The placeholder index is the parameter count after the push. -/
def applyFilter (cond : Bool) (param : SqlParam) (clause : Nat → String) :
    String × List SqlParam → String × List SqlParam
  | (qs, ps) => if cond then (qs ++ clause (ps.length + 1), ps ++ [param]) else (qs, ps)

/-- The query builder `getAllProperties(options, limit)`: returns the SQL
text and the positional parameter list passed to `pool.query`, following
the source statement by statement. -/
def getAllProperties (options : SearchOptions) (limit : Int) : String × List SqlParam :=
  let st0 := (baseQuery, ([] : List SqlParam))
  let st1 := applyFilter (truthyS options.city)
    (SqlParam.str ("%" ++ options.city.getD "" ++ "%")) cityClause st0
  let st2 := applyFilter (truthyN options.owner_id)
    (SqlParam.num (options.owner_id.getD 0)) ownerClause st1
  let st3 := applyFilter (truthyN options.minimum_price_per_night)
    (SqlParam.num (100 * options.minimum_price_per_night.getD 0)) minPriceClause st2
  let st4 := applyFilter (truthyN options.maximum_price_per_night)
    (SqlParam.num (100 * options.maximum_price_per_night.getD 0)) maxPriceClause st3
  let st5 := applyFilter (truthyN options.minimum_rating)
    (SqlParam.num (options.minimum_rating.getD 0)) ratingClause st4
  (st5.1 ++ closingClause (st5.2.length + 1), st5.2 ++ [SqlParam.num limit])

/-- Substring containment on SQL text, at the character-list level. -/
def strContains (pat s : String) : Prop := pat.data <:+: s.data

instance (pat s : String) : Decidable (strContains pat s) :=
  List.decidableInfix pat.data s.data

/-- Suffix containment on SQL text, at the character-list level. -/
def strHasSuffix (pat s : String) : Prop := pat.data <:+ s.data

instance (pat s : String) : Decidable (strHasSuffix pat s) :=
  inferInstanceAs (Decidable (pat.data <:+ s.data))

/-- Scanner state helper for `extractPlaceholders`: walks the character
list; `acc = some n` means a placeholder number with value `n` so far is
being read. -/
def phAux : List Char → Option Nat → List Nat
  | [], none => []
  | [], some n => [n]
  | c :: cs, none =>
    if c = '$' then phAux cs (some 0) else phAux cs none
  | c :: cs, some n =>
    if c.isDigit then phAux cs (some (10 * n + (c.toNat - 48)))
    else n :: (if c = '$' then phAux cs (some 0) else phAux cs none)

/-- The numbers of the `$k` placeholders of a SQL text, in order of
appearance. -/
def extractPlaceholders (s : String) : List Nat := phAux s.data none

/-- A row of the users table. -/
structure User where
  id : Int
  name : String
  email : String
  password : String
deriving DecidableEq

/-- A row of the properties table (the columns this module touches). -/
structure PropertyRow where
  id : Int
  owner_id : Int
  title : String
  description : String
  thumbnail_photo_url : String
  cover_photo_url : String
  cost_per_night : Int
  street : String
  city : String
  province : String
  post_code : String
  country : String
  parking_spaces : Int
  number_of_bathrooms : Int
  number_of_bedrooms : Int
  active : Bool
deriving DecidableEq

/-- A row of the reservations table. -/
structure ReservationRow where
  id : Int
  start_date : Int
  end_date : Int
  property_id : Int
  guest_id : Int
deriving DecidableEq

/-- A row of the property_reviews table. -/
structure ReviewRow where
  id : Int
  property_id : Int
  rating : Int
deriving DecidableEq

/-- The relational store: the four tables this module touches and the id
sequences of the two tables it inserts into. -/
structure DB where
  users : List User
  properties : List PropertyRow
  reservations : List ReservationRow
  property_reviews : List ReviewRow
  nextUserId : Int
  nextPropertyId : Int
deriving DecidableEq

/-- The query `SELECT * FROM users WHERE email = $1` of
`getUserWithEmail`, resolved to `res.rows[0]`: the first matching row,
absent when none matches. -/
def getUserWithEmail (db : DB) (email : String) : Option User :=
  (db.users.filter fun u => u.email == email).head?

/-- The query `SELECT * FROM users WHERE id = $1` of `getUserWithId`,
resolved to `res.rows[0]`. -/
def getUserWithId (db : DB) (id : Int) : Option User :=
  (db.users.filter fun u => u.id == id).head?

/-- A database constraint failure surfaced by the driver. -/
inductive DBError where
  | uniqueViolation
deriving DecidableEq

/-- Modelled from the spec: the users table's unique constraint on the
email column.  The schema is not part of the module under verification;
spec §3 declares email unique and §4.2 requires a duplicate email to
surface as a database constraint error. -/
def emailTaken (db : DB) (email : String) : Bool :=
  db.users.any fun u => u.email == email

/-- The statement `INSERT INTO users (name, email, password) VALUES
($1, $2, $3)` of `addUser` — no RETURNING clause, so the resolved value
`res.rows[0]` of the empty row set is absent; a duplicate email is
rejected by the store (see `emailTaken`). -/
def addUser (db : DB) (name email password : String) :
    Except DBError (DB × Option User) :=
  if emailTaken db email then
    .error .uniqueViolation
  else
    .ok ({ db with
            users := db.users ++ [⟨db.nextUserId, name, email, password⟩],
            nextUserId := db.nextUserId + 1 }, none)

/-- The property record passed to `addProperty`: the fourteen columns
the source reads, plus an `active` field the caller may supply but the
source never reads. -/
structure PropertyInput where
  owner_id : Int
  title : String
  description : String
  thumbnail_photo_url : String
  cover_photo_url : String
  cost_per_night : Int
  street : String
  city : String
  province : String
  post_code : String
  country : String
  parking_spaces : Int
  number_of_bathrooms : Int
  number_of_bedrooms : Int
  active : Option Bool
deriving DecidableEq

/-- The statement `INSERT INTO properties (...14 columns..., active)
VALUES ($1..$14, true) RETURNING *` of `addProperty`, resolved to the
inserted row. -/
def addProperty (db : DB) (p : PropertyInput) : DB × PropertyRow :=
  let row : PropertyRow :=
    { id := db.nextPropertyId
      owner_id := p.owner_id
      title := p.title
      description := p.description
      thumbnail_photo_url := p.thumbnail_photo_url
      cover_photo_url := p.cover_photo_url
      cost_per_night := p.cost_per_night
      street := p.street
      city := p.city
      province := p.province
      post_code := p.post_code
      country := p.country
      parking_spaces := p.parking_spaces
      number_of_bathrooms := p.number_of_bathrooms
      number_of_bedrooms := p.number_of_bedrooms
      active := true }
  ({ db with
      properties := db.properties ++ [row],
      nextPropertyId := db.nextPropertyId + 1 }, row)

/-- The combined record returned by `getAllReservations`:
`properties.*, reservations.*, avg(rating) as average_rating`. -/
structure ReservationRecord where
  property : PropertyRow
  reservation : ReservationRow
  average_rating : Rat

/-- The comparison of `ORDER BY reservations.start_date`. -/
def byStartDate (a b : ReservationRecord) : Prop :=
  a.reservation.start_date ≤ b.reservation.start_date

instance : DecidableRel byStartDate := fun a b =>
  inferInstanceAs (Decidable (a.reservation.start_date ≤ b.reservation.start_date))

/-- The FROM/JOIN clauses of `getAllReservations`: reservations inner
joined to properties on `reservations.property_id = properties.id` and
to property_reviews on `properties.id = property_reviews.property_id`,
under standard SQL semantics. -/
def reservationJoin (db : DB) : List (ReservationRow × PropertyRow × ReviewRow) :=
  db.reservations.flatMap fun r =>
    (db.properties.filter fun p => r.property_id == p.id).flatMap fun p =>
      (db.property_reviews.filter fun v => p.id == v.property_id).map fun v => (r, p, v)

/-- The WHERE clause of `getAllReservations`:
`reservations.guest_id = $1`. -/
def guestRows (db : DB) (guest_id : Int) :
    List (ReservationRow × PropertyRow × ReviewRow) :=
  (reservationJoin db).filter fun x => x.1.guest_id == guest_id

/-- One group of `GROUP BY properties.id, reservations.id`: the joined
rows with key `k`, collapsed to the selected columns with the
`avg(rating)` aggregate (`none` when the group is empty, i.e. the key
does not occur). -/
def reservationGroup (db : DB) (guest_id : Int) (k : Int × Int) :
    Option ReservationRecord :=
  match (guestRows db guest_id).filter (fun x => (x.2.1.id, x.1.id) == k) with
  | [] => none
  | x :: xs =>
    some { property := x.2.1
           reservation := x.1
           average_rating :=
             ((x :: xs).map fun y => (y.2.2.rating : Rat)).sum / ((x :: xs).length : Rat) }

/-- The query of `getAllReservations(guest_id, limit)` under standard
SQL semantics: join, filter to the guest, group by
(properties.id, reservations.id) with the average-rating aggregate,
ORDER BY reservations.start_date, LIMIT. -/
def getAllReservations (db : DB) (guest_id : Int) (limit : Nat) :
    List ReservationRecord :=
  let keys := ((guestRows db guest_id).map fun x => (x.2.1.id, x.1.id)).dedup
  (List.insertionSort byStartDate
    (keys.filterMap (reservationGroup db guest_id))).take limit

/-- A one-user store used by the concrete witnesses. -/
def dbSample : DB :=
  ⟨[⟨1, "A", "a@x.com", "p"⟩], [], [], [], 2, 1⟩

/-- Closed form of the query builder: the SQL text is the base SELECT
followed, in the source's fixed order, by the predicate of each truthy
option (an absent or falsy option contributes nothing), each placeholder
index being one plus the number of previously bound parameters; the
parameter list collects, in the same order, the wildcarded city pattern,
the owner id, the two prices multiplied by 100, the rating, and finally
the limit. -/
theorem getAllProperties_closed (o : SearchOptions) (limit : Int) :
    getAllProperties o limit =
      (baseQuery
        ++ (if truthyS o.city then cityClause 1 else "")
        ++ (if truthyN o.owner_id then
              ownerClause ((truthyS o.city).toNat + 1) else "")
        ++ (if truthyN o.minimum_price_per_night then
              minPriceClause ((truthyS o.city).toNat + (truthyN o.owner_id).toNat + 1) else "")
        ++ (if truthyN o.maximum_price_per_night then
              maxPriceClause ((truthyS o.city).toNat + (truthyN o.owner_id).toNat
                + (truthyN o.minimum_price_per_night).toNat + 1) else "")
        ++ (if truthyN o.minimum_rating then
              ratingClause ((truthyS o.city).toNat + (truthyN o.owner_id).toNat
                + (truthyN o.minimum_price_per_night).toNat
                + (truthyN o.maximum_price_per_night).toNat + 1) else "")
        ++ closingClause ((truthyS o.city).toNat + (truthyN o.owner_id).toNat
            + (truthyN o.minimum_price_per_night).toNat
            + (truthyN o.maximum_price_per_night).toNat
            + (truthyN o.minimum_rating).toNat + 1),
       (if truthyS o.city then [SqlParam.str ("%" ++ o.city.getD "" ++ "%")] else [])
        ++ (if truthyN o.owner_id then [SqlParam.num (o.owner_id.getD 0)] else [])
        ++ (if truthyN o.minimum_price_per_night then
              [SqlParam.num (100 * o.minimum_price_per_night.getD 0)] else [])
        ++ (if truthyN o.maximum_price_per_night then
              [SqlParam.num (100 * o.maximum_price_per_night.getD 0)] else [])
        ++ (if truthyN o.minimum_rating then [SqlParam.num (o.minimum_rating.getD 0)] else [])
        ++ [SqlParam.num limit]) := by
  simp only [getAllProperties]
  cases h1 : truthyS o.city <;>
  cases h2 : truthyN o.owner_id <;>
  cases h3 : truthyN o.minimum_price_per_night <;>
  cases h4 : truthyN o.maximum_price_per_night <;>
  cases h5 : truthyN o.minimum_rating <;>
    simp [applyFilter]

set_option maxRecDepth 100000

/-- Substring containment survives appending on the right. -/
theorem strContains_append_right (p a b : String) (h : strContains p a) :
    strContains p (a ++ b) := by
  obtain ⟨s, t, hst⟩ := h
  refine ⟨s, t ++ b.data, ?_⟩
  rw [String.data_append, ← hst]
  simp

/-- Any substring of the base SELECT occurs in every built query. -/
theorem strContains_baseQuery (o : SearchOptions) (limit : Int) (p : String)
    (hp : strContains p baseQuery) : strContains p (getAllProperties o limit).1 := by
  rw [getAllProperties_closed]
  exact strContains_append_right _ _ _ (strContains_append_right _ _ _
    (strContains_append_right _ _ _ (strContains_append_right _ _ _
      (strContains_append_right _ _ _ (strContains_append_right _ _ _ hp)))))

/-- C1: for every options record and limit, `getAllProperties` builds one
SQL statement whose text is the base clause — selecting all property
columns plus the average review rating via a LEFT JOIN to
property_reviews, starting from the always-true predicate 1=1 —
followed, in the source's fixed order, by exactly the AND-prefixed
predicate of each present (truthy) option; an absent option contributes
no predicate and binds no parameter, so the WHERE clause is the
conjunction of the predicates of exactly the present options. -/
theorem getAllProperties_builds_base_and_optional_predicates
    (o : SearchOptions) (limit : Int) :
    getAllProperties o limit =
      (baseQuery
        ++ (if truthyS o.city then cityClause 1 else "")
        ++ (if truthyN o.owner_id then
              ownerClause ((truthyS o.city).toNat + 1) else "")
        ++ (if truthyN o.minimum_price_per_night then
              minPriceClause ((truthyS o.city).toNat + (truthyN o.owner_id).toNat + 1) else "")
        ++ (if truthyN o.maximum_price_per_night then
              maxPriceClause ((truthyS o.city).toNat + (truthyN o.owner_id).toNat
                + (truthyN o.minimum_price_per_night).toNat + 1) else "")
        ++ (if truthyN o.minimum_rating then
              ratingClause ((truthyS o.city).toNat + (truthyN o.owner_id).toNat
                + (truthyN o.minimum_price_per_night).toNat
                + (truthyN o.maximum_price_per_night).toNat + 1) else "")
        ++ closingClause ((truthyS o.city).toNat + (truthyN o.owner_id).toNat
            + (truthyN o.minimum_price_per_night).toNat
            + (truthyN o.maximum_price_per_night).toNat
            + (truthyN o.minimum_rating).toNat + 1),
       (if truthyS o.city then [SqlParam.str ("%" ++ o.city.getD "" ++ "%")] else [])
        ++ (if truthyN o.owner_id then [SqlParam.num (o.owner_id.getD 0)] else [])
        ++ (if truthyN o.minimum_price_per_night then
              [SqlParam.num (100 * o.minimum_price_per_night.getD 0)] else [])
        ++ (if truthyN o.maximum_price_per_night then
              [SqlParam.num (100 * o.maximum_price_per_night.getD 0)] else [])
        ++ (if truthyN o.minimum_rating then [SqlParam.num (o.minimum_rating.getD 0)] else [])
        ++ [SqlParam.num limit])
    ∧ strContains "SELECT properties.*, avg(property_reviews.rating) as average_rating"
        (getAllProperties o limit).1
    ∧ strContains "LEFT JOIN property_reviews ON properties.id = property_id"
        (getAllProperties o limit).1
    ∧ strContains "WHERE 1=1" (getAllProperties o limit).1 := by
  exact ⟨getAllProperties_closed o limit,
    strContains_baseQuery o limit _ (by decide),
    strContains_baseQuery o limit _ (by decide),
    strContains_baseQuery o limit _ (by decide)⟩

/-- C9: a recognized option whose value is falsy (empty string for city,
0 for the numeric options) is treated exactly like an absent option: the
built query and parameter list are unchanged. -/
theorem getAllProperties_falsy_options_ignored (o : SearchOptions) (limit : Int) :
    getAllProperties { o with city := some "" } limit
        = getAllProperties { o with city := none } limit
    ∧ getAllProperties { o with owner_id := some 0 } limit
        = getAllProperties { o with owner_id := none } limit
    ∧ getAllProperties { o with minimum_price_per_night := some 0 } limit
        = getAllProperties { o with minimum_price_per_night := none } limit
    ∧ getAllProperties { o with maximum_price_per_night := some 0 } limit
        = getAllProperties { o with maximum_price_per_night := none } limit
    ∧ getAllProperties { o with minimum_rating := some 0 } limit
        = getAllProperties { o with minimum_rating := none } limit :=
  ⟨rfl, rfl, rfl, rfl, rfl⟩

/-- C10: query construction is deterministic — it reads nothing but the
options record and the limit, so equal inputs give the identical SQL
text and parameter list. -/
theorem getAllProperties_deterministic (o₁ o₂ : SearchOptions) (l₁ l₂ : Int)
    (ho : o₁ = o₂) (hl : l₁ = l₂) :
    getAllProperties o₁ l₁ = getAllProperties o₂ l₂ := by
  rw [ho, hl]

/-- Witness for C10 at a concrete input. -/
theorem getAllProperties_deterministic_witness :
    getAllProperties ⟨some "van", none, some 50, none, none⟩ 10
      = getAllProperties ⟨some "van", none, some 50, none, none⟩ 10 :=
  getAllProperties_deterministic _ _ _ _ rfl rfl

/-- A string is a suffix of anything that appends it on the right. -/
theorem strHasSuffix_append (a b : String) : strHasSuffix b (a ++ b) :=
  ⟨a.data, (String.data_append a b).symm⟩

/-- C3: parameters are bound positionally — the `$k` placeholders of the
built SQL text, read in order of appearance, are exactly `1, …, n` where
`n` is the length of the parameter list, so the i-th parameter matches
placeholder `$i` and parameter order matches predicate-append order; the
limit is always the last parameter, bound by the closing
`GROUP BY properties.id / ORDER BY cost_per_night / LIMIT $n` text that
ends the query. -/
theorem getAllProperties_positional_placeholders (o : SearchOptions) (limit : Int) :
    extractPlaceholders (getAllProperties o limit).1
        = List.range' 1 (getAllProperties o limit).2.length
    ∧ (getAllProperties o limit).2.getLast? = some (SqlParam.num limit)
    ∧ strHasSuffix (closingClause (getAllProperties o limit).2.length)
        (getAllProperties o limit).1 := by
  refine ⟨?_, ?_, ?_⟩
  · rw [getAllProperties_closed]
    cases h1 : truthyS o.city <;> cases h2 : truthyN o.owner_id <;>
    cases h3 : truthyN o.minimum_price_per_night <;>
    cases h4 : truthyN o.maximum_price_per_night <;>
    cases h5 : truthyN o.minimum_rating <;> simp <;> decide
  · simp only [getAllProperties]
    exact List.getLast?_concat _
  · simp only [getAllProperties, List.length_append, List.length_cons, List.length_nil]
    exact strHasSuffix_append _ _

/-- C2: a present (truthy) minimum or maximum price option with value
`v` binds the parameter `100 * v` (major currency units converted to
minor units) at exactly the position named by the placeholder of its
`cost_per_night >= $i` (resp. `<= $i`) predicate; in particular with
minimum 50 and maximum 100 the bound parameters are 5000 and 10000 and
the two inclusive comparison predicates. -/
theorem getAllProperties_price_filters_times_100 (o : SearchOptions) (limit v : Int) :
    (o.minimum_price_per_night = some v → v ≠ 0 →
      ∃ i, strContains (minPriceClause i) (getAllProperties o limit).1
        ∧ (getAllProperties o limit).2[i-1]? = some (SqlParam.num (100 * v)))
    ∧ (o.maximum_price_per_night = some v → v ≠ 0 →
      ∃ i, strContains (maxPriceClause i) (getAllProperties o limit).1
        ∧ (getAllProperties o limit).2[i-1]? = some (SqlParam.num (100 * v)))
    ∧ getAllProperties ⟨none, none, some 50, some 100, none⟩ limit
        = (baseQuery ++ minPriceClause 1 ++ maxPriceClause 2 ++ closingClause 3,
           [SqlParam.num 5000, SqlParam.num 10000, SqlParam.num limit]) := by
  refine ⟨?_, ?_, ?_⟩
  · intro hmin hv
    rw [getAllProperties_closed, hmin]
    have hb : truthyN (some v) = true := by simpa [truthyN] using hv
    rw [hb]
    refine ⟨(truthyS o.city).toNat + (truthyN o.owner_id).toNat + 1, ?_, ?_⟩
    · cases h1 : truthyS o.city <;> cases h2 : truthyN o.owner_id <;>
      cases h4 : truthyN o.maximum_price_per_night <;>
      cases h5 : truthyN o.minimum_rating <;> simp <;> decide
    · cases h1 : truthyS o.city <;> cases h2 : truthyN o.owner_id <;>
      cases h4 : truthyN o.maximum_price_per_night <;>
      cases h5 : truthyN o.minimum_rating <;> simp
  · intro hmax hv
    rw [getAllProperties_closed, hmax]
    have hb : truthyN (some v) = true := by simpa [truthyN] using hv
    rw [hb]
    refine ⟨(truthyS o.city).toNat + (truthyN o.owner_id).toNat
      + (truthyN o.minimum_price_per_night).toNat + 1, ?_, ?_⟩
    · cases h1 : truthyS o.city <;> cases h2 : truthyN o.owner_id <;>
      cases h3 : truthyN o.minimum_price_per_night <;>
      cases h5 : truthyN o.minimum_rating <;> simp <;> decide
    · cases h1 : truthyS o.city <;> cases h2 : truthyN o.owner_id <;>
      cases h3 : truthyN o.minimum_price_per_night <;>
      cases h5 : truthyN o.minimum_rating <;> simp
  · rfl

/-- Witness for C2 at a concrete input: minimum price 50, limit 10. -/
theorem getAllProperties_price_filters_times_100_witness :
    ∃ i, strContains (minPriceClause i)
        (getAllProperties ⟨none, none, some 50, none, none⟩ 10).1
      ∧ (getAllProperties ⟨none, none, some 50, none, none⟩ 10).2[i-1]?
          = some (SqlParam.num (100 * 50)) :=
  (getAllProperties_price_filters_times_100 ⟨none, none, some 50, none, none⟩ 10 50).1
    rfl (by decide)

/-- C4: a present (truthy) minimum_rating option with value `r` appends
the predicate on the per-row `property_reviews.rating` column
(pre-aggregation) with bound parameter `r`; the built query never
compares the computed `average_rating` and has no HAVING clause. -/
theorem getAllProperties_minimum_rating_per_row (o : SearchOptions) (limit r : Int)
    (hmin : o.minimum_rating = some r) (hr : r ≠ 0) :
    ∃ i, strContains (ratingClause i) (getAllProperties o limit).1
      ∧ (getAllProperties o limit).2[i-1]? = some (SqlParam.num r)
      ∧ ¬ strContains "average_rating >=" (getAllProperties o limit).1
      ∧ ¬ strContains "HAVING" (getAllProperties o limit).1 := by
  rw [getAllProperties_closed, hmin]
  have hb : truthyN (some r) = true := by simpa [truthyN] using hr
  rw [hb]
  refine ⟨(truthyS o.city).toNat + (truthyN o.owner_id).toNat
    + (truthyN o.minimum_price_per_night).toNat
    + (truthyN o.maximum_price_per_night).toNat + 1, ?_, ?_, ?_, ?_⟩
  · cases h1 : truthyS o.city <;> cases h2 : truthyN o.owner_id <;>
    cases h3 : truthyN o.minimum_price_per_night <;>
    cases h4 : truthyN o.maximum_price_per_night <;> simp <;> decide
  · cases h1 : truthyS o.city <;> cases h2 : truthyN o.owner_id <;>
    cases h3 : truthyN o.minimum_price_per_night <;>
    cases h4 : truthyN o.maximum_price_per_night <;> simp
  · cases h1 : truthyS o.city <;> cases h2 : truthyN o.owner_id <;>
    cases h3 : truthyN o.minimum_price_per_night <;>
    cases h4 : truthyN o.maximum_price_per_night <;> simp <;> decide
  · cases h1 : truthyS o.city <;> cases h2 : truthyN o.owner_id <;>
    cases h3 : truthyN o.minimum_price_per_night <;>
    cases h4 : truthyN o.maximum_price_per_night <;> simp <;> decide

/-- Witness for C4 at a concrete input: minimum rating 4, limit 10. -/
theorem getAllProperties_minimum_rating_per_row_witness :
    ∃ i, strContains (ratingClause i)
        (getAllProperties ⟨none, none, none, none, some 4⟩ 10).1
      ∧ (getAllProperties ⟨none, none, none, none, some 4⟩ 10).2[i-1]?
          = some (SqlParam.num 4)
      ∧ ¬ strContains "average_rating >="
          (getAllProperties ⟨none, none, none, none, some 4⟩ 10).1
      ∧ ¬ strContains "HAVING" (getAllProperties ⟨none, none, none, none, some 4⟩ 10).1 :=
  getAllProperties_minimum_rating_per_row ⟨none, none, none, none, some 4⟩ 10 4
    rfl (by decide)

/-- The head of a filtered list is a member satisfying the filter. -/
theorem head?_filter_spec {α : Type} (p : α → Bool) (l : List α) (u : α)
    (h : (l.filter p).head? = some u) : u ∈ l ∧ p u = true := by
  cases hf : l.filter p with
  | nil => rw [hf] at h; cases h
  | cons a t =>
    rw [hf] at h
    have ha : a = u := by simpa using h
    subst ha
    have hu : a ∈ l.filter p := by rw [hf]; exact List.mem_cons_self a t
    exact ⟨List.mem_of_mem_filter hu, (List.mem_filter.mp hu).2⟩

/-- C6: `getUserWithEmail` is an exact match on the email column: it is
absent exactly when no stored user has the given email, and any returned
record is a stored user with that email; `getUserWithId` likewise
returns only a stored user whose id equals the argument, and a stored
user with a matching email guarantees a non-absent result. -/
theorem getUserWith_exact_match (db : DB) (email : String) (id : Int) :
    (getUserWithEmail db email = none ↔ ∀ u ∈ db.users, u.email ≠ email)
    ∧ (∀ u, getUserWithEmail db email = some u → u ∈ db.users ∧ u.email = email)
    ∧ (∀ u ∈ db.users, u.email = email → ∃ w, getUserWithEmail db email = some w)
    ∧ (∀ u, getUserWithId db id = some u → u ∈ db.users ∧ u.id = id) := by
  refine ⟨?_, ?_, ?_, ?_⟩
  · unfold getUserWithEmail
    rw [List.head?_eq_none_iff, List.filter_eq_nil_iff]
    simp
  · intro u h
    obtain ⟨hmem, hp⟩ := head?_filter_spec _ _ u h
    exact ⟨hmem, by simpa using hp⟩
  · intro u hu he
    unfold getUserWithEmail
    cases hf : db.users.filter (fun w => w.email == email) with
    | nil =>
      exfalso
      have : u ∈ db.users.filter fun w => w.email == email :=
        List.mem_filter.mpr ⟨hu, by simp [he]⟩
      rw [hf] at this
      cases this
    | cons a t => exact ⟨a, rfl⟩
  · intro u h
    obtain ⟨hmem, hp⟩ := head?_filter_spec _ _ u h
    exact ⟨hmem, by simpa using hp⟩

/-- Witness for C6 on a concrete one-user store. -/
theorem getUserWith_exact_match_witness :
    getUserWithEmail dbSample "b@x.com" = none
    ∧ ((⟨1, "A", "a@x.com", "p"⟩ : User) ∈ dbSample.users
        ∧ ("a@x.com" : String) = "a@x.com")
    ∧ (∃ w, getUserWithEmail dbSample "a@x.com" = some w)
    ∧ ((⟨1, "A", "a@x.com", "p"⟩ : User) ∈ dbSample.users ∧ (1 : Int) = 1) :=
  ⟨(getUserWith_exact_match dbSample "b@x.com" 1).1.mpr (by decide),
   (getUserWith_exact_match dbSample "a@x.com" 1).2.1 ⟨1, "A", "a@x.com", "p"⟩ (by decide),
   (getUserWith_exact_match dbSample "a@x.com" 1).2.2.1 ⟨1, "A", "a@x.com", "p"⟩
     (by decide) rfl,
   (getUserWith_exact_match dbSample "a@x.com" 1).2.2.2 ⟨1, "A", "a@x.com", "p"⟩
     (by decide)⟩

/-- C8: `addUser` stores name, email and password exactly as given — no
hashing, no uniqueness pre-check — and, since the insert requests no
returned columns, the resolved value is absent; a duplicate email
surfaces only as the rejected result carrying the store's constraint
error. -/
theorem addUser_as_given_no_returning (db : DB) (name email password : String) :
    ((∀ u ∈ db.users, u.email ≠ email) →
      addUser db name email password
        = .ok ({ db with
                  users := db.users ++ [⟨db.nextUserId, name, email, password⟩],
                  nextUserId := db.nextUserId + 1 }, none))
    ∧ ((∃ u ∈ db.users, u.email = email) →
      addUser db name email password = .error DBError.uniqueViolation) := by
  constructor
  · intro h
    have hc : emailTaken db email = false := by
      simp only [emailTaken, List.any_eq_false]
      intro u hu
      simpa using h u hu
    simp [addUser, hc]
  · intro h
    obtain ⟨u, hu, he⟩ := h
    have hc : emailTaken db email = true := by
      simp only [emailTaken, List.any_eq_true]
      exact ⟨u, hu, by simp [he]⟩
    simp [addUser, hc]

/-- Witness for C8: a fresh email inserts as given with an absent
result; a duplicate email is rejected. -/
theorem addUser_as_given_no_returning_witness :
    addUser dbSample "B" "b@x.com" "q"
      = .ok ({ dbSample with
                users := dbSample.users ++ [⟨dbSample.nextUserId, "B", "b@x.com", "q"⟩],
                nextUserId := dbSample.nextUserId + 1 }, none)
    ∧ addUser dbSample "C" "a@x.com" "r" = .error DBError.uniqueViolation :=
  ⟨(addUser_as_given_no_returning dbSample "B" "b@x.com" "q").1 (by decide),
   (addUser_as_given_no_returning dbSample "C" "a@x.com" "r").2
     ⟨⟨1, "A", "a@x.com", "p"⟩, by decide, rfl⟩⟩

/-- C7: `addProperty` inserts exactly the fourteen caller-supplied
columns, hardcodes `active` to true, and resolves to the inserted row,
so the returned record has `active = true` and copies every input
column, whatever `active` value the input record carries. -/
theorem addProperty_fourteen_columns_active_true (db : DB) (p : PropertyInput) :
    (addProperty db p).2.active = true
    ∧ (addProperty db p).1.properties = db.properties ++ [(addProperty db p).2]
    ∧ (addProperty db p).2.owner_id = p.owner_id
    ∧ (addProperty db p).2.title = p.title
    ∧ (addProperty db p).2.description = p.description
    ∧ (addProperty db p).2.thumbnail_photo_url = p.thumbnail_photo_url
    ∧ (addProperty db p).2.cover_photo_url = p.cover_photo_url
    ∧ (addProperty db p).2.cost_per_night = p.cost_per_night
    ∧ (addProperty db p).2.street = p.street
    ∧ (addProperty db p).2.city = p.city
    ∧ (addProperty db p).2.province = p.province
    ∧ (addProperty db p).2.post_code = p.post_code
    ∧ (addProperty db p).2.country = p.country
    ∧ (addProperty db p).2.parking_spaces = p.parking_spaces
    ∧ (addProperty db p).2.number_of_bathrooms = p.number_of_bathrooms
    ∧ (addProperty db p).2.number_of_bedrooms = p.number_of_bedrooms
    ∧ (∀ b, addProperty db { p with active := b } = addProperty db p) :=
  ⟨rfl, rfl, rfl, rfl, rfl, rfl, rfl, rfl, rfl, rfl, rfl, rfl, rfl, rfl, rfl, rfl,
   fun _ => rfl⟩

/-- A record produced by `reservationGroup` copies its property and
reservation columns from some joined row of the group. -/
theorem reservationGroup_mem {db : DB} {gid : Int} {k : Int × Int}
    {rec : ReservationRecord} (h : reservationGroup db gid k = some rec) :
    ∃ x ∈ guestRows db gid, rec.property = x.2.1 ∧ rec.reservation = x.1 := by
  unfold reservationGroup at h
  cases hf : (guestRows db gid).filter (fun x => (x.2.1.id, x.1.id) == k) with
  | nil => rw [hf] at h; cases h
  | cons x xs =>
    rw [hf] at h
    have hx : x ∈ (guestRows db gid).filter fun x => (x.2.1.id, x.1.id) == k := by
      rw [hf]; exact List.mem_cons_self x xs
    cases h
    exact ⟨x, List.mem_of_mem_filter hx, rfl, rfl⟩

/-- A row surviving the guest filter belongs to the guest and carries a
stored review of its property (inner-join semantics). -/
theorem guestRows_mem {db : DB} {gid : Int}
    {x : ReservationRow × PropertyRow × ReviewRow} (h : x ∈ guestRows db gid) :
    x.1.guest_id = gid ∧ ∃ v ∈ db.property_reviews, v.property_id = x.2.1.id := by
  unfold guestRows at h
  obtain ⟨h1, h2⟩ := List.mem_filter.mp h
  refine ⟨by simpa using h2, ?_⟩
  unfold reservationJoin at h1
  obtain ⟨r, _, h3⟩ := List.mem_flatMap.mp h1
  obtain ⟨p, _, h4⟩ := List.mem_flatMap.mp h3
  obtain ⟨v, hv, h5⟩ := List.mem_map.mp h4
  subst h5
  obtain ⟨hvmem, hvp⟩ := List.mem_filter.mp hv
  exact ⟨v, hvmem, by symm; simpa using hvp⟩

/-- Every record returned by `getAllReservations` belongs to the given
guest and its property has at least one stored review. -/
theorem getAllReservations_mem {db : DB} {gid : Int} {limit : Nat}
    {rec : ReservationRecord} (h : rec ∈ getAllReservations db gid limit) :
    rec.reservation.guest_id = gid
    ∧ ∃ v ∈ db.property_reviews, v.property_id = rec.property.id := by
  unfold getAllReservations at h
  have h1 := List.mem_of_mem_take h
  have h2 := (List.perm_insertionSort byStartDate _).mem_iff.mp h1
  obtain ⟨k, _, hg⟩ := List.mem_filterMap.mp h2
  obtain ⟨x, hx, hprop, hres⟩ := reservationGroup_mem hg
  obtain ⟨hguest, v, hv, hvp⟩ := guestRows_mem hx
  exact ⟨by rw [hres]; exact hguest, v, hv, by rw [hprop]; exact hvp⟩

/-- C5: `getAllReservations` returns at most `limit` combined
property+reservation+average-rating records, all belonging to the given
guest, ordered by non-decreasing reservation start_date, and — because
of the inner join to property_reviews — every returned record's
property has at least one stored review, so reservations of zero-review
properties are excluded. -/
theorem getAllReservations_spec (db : DB) (guest_id : Int) (limit : Nat) :
    (getAllReservations db guest_id limit).length ≤ limit
    ∧ (∀ rec ∈ getAllReservations db guest_id limit,
        rec.reservation.guest_id = guest_id)
    ∧ List.Sorted byStartDate (getAllReservations db guest_id limit)
    ∧ (∀ rec ∈ getAllReservations db guest_id limit,
        ∃ v ∈ db.property_reviews, v.property_id = rec.property.id) := by
  refine ⟨List.length_take_le _ _, fun rec h => (getAllReservations_mem h).1, ?_,
    fun rec h => (getAllReservations_mem h).2⟩
  haveI : IsTotal ReservationRecord byStartDate := ⟨fun a b => Int.le_total _ _⟩
  haveI : IsTrans ReservationRecord byStartDate :=
    ⟨fun _ _ _ h1 h2 => le_trans h1 h2⟩
  have hs : List.Pairwise byStartDate
      (List.insertionSort byStartDate
        ((((guestRows db guest_id).map fun x => (x.2.1.id, x.1.id)).dedup).filterMap
          (reservationGroup db guest_id))) :=
    List.sorted_insertionSort byStartDate _
  exact hs.sublist (List.take_sublist _ _)

end LightBnB
